import Mathlib

/-!
# Focus Timer — verification of the session-lifecycle core

A shallow embedding of the Focus Timer browser extension's core modules
(scoringEngine, eventBus, sessionManager, storageAdapter, timerEngine,
distractionTracking, and the background alarm/message wiring), together
with theorems settling the specification claims about them.

Conventions of the embedding:
* JS numbers are modelled as `Int` (all quantities involved are integers;
  `Math.floor(x / 1000)` becomes `Int.fdiv x 1000`, and `Math.round(n / d)`
  for integers `n`, `d > 0` becomes `(2*n + d).fdiv (2*d)`, i.e. round half
  toward +infinity, exactly JS's rounding rule on exact values).
* `Date.now()` is passed to each operation as an explicit `now : Int`
  (Unix milliseconds); generated session ids are passed explicitly.
* The date string `toISOString().slice(0, 10)` is represented by the day
  index (days since 1970-01-01) of the UTC calendar date it prints; local
  calendar accessors (`getDay`, `setDate`) are modelled for a clock with a
  constant offset of `tz` minutes east of UTC (no DST transition inside
  the instants considered).
* Storage (`chrome.storage.local`) and module-level mutable variables are
  folded into one explicit `World` record; every operation is a pure
  function on `World`.  Async functions are modelled atomically, in the
  order in which the source awaits its effects.
-/

namespace FocusTimer

/-! ## Integer models of JS numeric primitives -/

/-- JS `Math.round (num / den)` for integers, `den > 0`: round half toward
+infinity, computed exactly as `⌊num/den + 1/2⌋`. -/
def jsRound (num den : Int) : Int := (2 * num + den).fdiv (2 * den)

/-! ## Calendar-key model (sessionManager `_todayKey`, `_calcStreak`,
storageAdapter `_weekKey`) -/

def msPerDay : Int := 86400000
def msPerMin : Int := 60000

/-- Day index of the UTC calendar date that
`new Date(t).toISOString().slice(0, 10)` prints. -/
def isoDateKey (t : Int) : Int := t.fdiv msPerDay

/-- Day index of the local calendar date at instant `t`, for a clock whose
local offset is `tz` minutes east of UTC. -/
def localDateKey (t tz : Int) : Int := (t + tz * msPerMin).fdiv msPerDay

/-- Model of `Date.prototype.getDay()` (local weekday, 0 = Sunday … 6 = Saturday).
Day 0 (1970-01-01) was a Thursday, weekday 4. -/
def jsGetDay (t tz : Int) : Int := (localDateKey t tz + 4).emod 7

/-- Model of `_todayKey()` from sessionManager:
`new Date().toISOString().slice(0, 10)`. -/
def todayKey (t : Int) : Int := isoDateKey t

/-- The "yesterday" key computed inside `_calcStreak`:
`yesterday.setDate(yesterday.getDate() - 1)` moves the instant back one
local calendar day (minus 86400000 ms under a constant offset), then
`toISOString().slice(0, 10)` serialises it. -/
def yesterdayKey (t : Int) : Int := isoDateKey (t - msPerDay)

/-- Model of `(d.getDay() + 6) % 7` from `_weekKey`: days back to the local Monday. -/
def daysSinceMonday (t tz : Int) : Int := (jsGetDay t tz + 6).emod 7

/-- Model of `_weekKey()` from storageAdapter: step back `(getDay()+6) % 7` local
calendar days from now, then serialise with `toISOString().slice(0, 10)`. -/
def weekKey (t tz : Int) : Int :=
  isoDateKey (t - daysSinceMonday t tz * msPerDay)

/-- Modelled from the spec: the "today" key the spec asks for — the local
calendar date of the instant. -/
def localTodayKey (t tz : Int) : Int := localDateKey t tz

/-- Modelled from the spec: the "yesterday" key the spec asks for — the
local calendar date immediately before today's. -/
def localYesterdayKey (t tz : Int) : Int := localDateKey t tz - 1

/-- Modelled from the spec: the Monday anchor the spec asks for — the local
calendar date of the Monday of the current local week. -/
def localMondayKey (t tz : Int) : Int :=
  localDateKey t tz - daysSinceMonday t tz

/-! ## Scoring engine (src/core/scoringEngine.js) -/

/-- The metric fields `calcFocusScore` reads; `none` models an absent field
(each is read through `(x || 0)` in the source). -/
structure SessionMetrics where
  tabSwitchCount : Option Int
  distractionVisits : Option Int
  distractionSeconds : Option Int
  interrupted : Bool
deriving DecidableEq, Repr

/-- JS `(x || 0)` on a possibly-absent numeric field. -/
def orZero (x : Option Int) : Int := x.getD 0

/-- Model of `calcFocusScore` from scoringEngine.js. -/
def calcFocusScore (s : SessionMetrics) : Int :=
  let s1 := 100 - orZero s.tabSwitchCount * 5
  let s2 := s1 - orZero s.distractionVisits * 10
  let s3 := s2 - jsRound (orZero s.distractionSeconds) 60
  let s4 := if !s.interrupted then s3 + 10 else s3
  max 0 (min 100 (jsRound s4 1))

structure QualityTier where
  label : String
  minScore : Int
  color : String
deriving DecidableEq, Repr

/-- Model of `QUALITY_TIERS`, ordered best to worst. -/
def QUALITY_TIERS : List QualityTier :=
  [⟨"Deep Work", 90, "#818cf8"⟩,
   ⟨"Focused", 70, "#4ade80"⟩,
   ⟨"Fragmented", 40, "#fbbf24"⟩,
   ⟨"Distracted", 0, "#f87171"⟩]

/-- Model of `getTier`: first tier whose `min` is ≤ the score, falling back to the
last entry of `QUALITY_TIERS`. -/
def getTier (score : Int) : QualityTier :=
  (QUALITY_TIERS.find? (fun t => score ≥ t.minScore)).getD
    ⟨"Distracted", 0, "#f87171"⟩

/-- Model of `qualityLabel` from scoringEngine.js. -/
def qualityLabel (score : Int) : String := (getTier score).label

/-- Model of `score()` from scoringEngine.js (projected onto the `score` and
`qualityLabel` fields of its result object). -/
def scoreResult (m : SessionMetrics) : Int × String :=
  let s := calcFocusScore m
  (s, (getTier s).label)

/-- Modelled from the spec's formula wording: start at 100, subtract
5 per tab switch, 10 per distraction visit, `round(distractionSeconds/60)`,
add 10 when not interrupted, clamp to `[0, 100]`. -/
def specScore (tabSwitchCount distractionVisits distractionSeconds : Int)
    (interrupted : Bool) : Int :=
  let raw := 100 - 5 * tabSwitchCount - 10 * distractionVisits
      - jsRound distractionSeconds 60
      + (if !interrupted then 10 else 0)
  max 0 (min 100 raw)

/-! ## Event bus (src/core/eventBus.js) -/

namespace EventBus

/-- Observable outcome of one wrapped handler invocation: either the
handler's own result, or the log entry that `_wrap`'s catch produces
(source name, hook name, error message). -/
inductive HandlerOutcome (α : Type) where
  | ok (value : α)
  | caught (source hookName msg : String)
deriving DecidableEq, Repr

/-- A raw handler: its body either returns a value or throws. -/
def RawHandler (π α : Type) := π → Except String α

/-- Model of `_wrap(source, hookName, fn)`: run the handler inside try/catch; a
thrown error becomes a logged `caught` outcome and never propagates. -/
def wrapHandler (source hookName : String) (f : RawHandler π α) :
    π → HandlerOutcome α :=
  fun payload =>
    match f payload with
    | .ok v => .ok v
    | .error e => .caught source hookName e

/-- The `_registry`: hook name → wrapped handlers, in registration order. -/
def Registry (π α : Type) := String → List (π → HandlerOutcome α)

/-- Model of `emit(hookName, payload)`: invoke every registered handler for the hook
synchronously in order and return the handler count, paired here with the
ordered list of handler outcomes as the observable trace of the dispatch. -/
def emit (reg : Registry π α) (hookName : String) (payload : π) :
    Nat × List (HandlerOutcome α) :=
  let handlers := reg hookName
  if handlers.isEmpty then (0, [])
  else (handlers.length, handlers.map (fun h => h payload))

/-- A registry holding exactly the named raw handlers of `named` on hook
`hook` (each wrapped by `_wrap`, as `registerPlugin`/`on` do) and nothing
on any other hook. -/
def singleHookRegistry (hook : String) (named : List (String × RawHandler π α)) :
    Registry π α :=
  fun h => if h = hook then named.map (fun nf => wrapHandler nf.1 hook nf.2) else []

end EventBus

/-! ## Data model (sessionManager / storageAdapter records) -/

/-- A `SessionObject` (sessionManager). Optional fields are gained on
completion. -/
structure Session where
  id : String
  startTime : Int
  duration : Int
  tabSwitchCount : Int
  distractionVisits : Int
  distractionSeconds : Int
  lastDistractionDomain : Option String
  interrupted : Bool
  endTime : Option Int := none
  score : Option Int := none
  qualityLabel : Option String := none
  completed : Bool := false
deriving DecidableEq, Repr

/-- The metric fields `scoring.score` reads off a session object. -/
def Session.metrics (s : Session) : SessionMetrics :=
  ⟨some s.tabSwitchCount, some s.distractionVisits,
   some s.distractionSeconds, s.interrupted⟩

/-- Model of `createSession(duration)`; `Date.now()` and the generated id are
explicit arguments. -/
def createSession (now : Int) (id : String) (duration : Int) : Session :=
  { id := id, startTime := now, duration := duration,
    tabSwitchCount := 0, distractionVisits := 0, distractionSeconds := 0,
    lastDistractionDomain := none, interrupted := false }

/-- Model of `recordTabSwitch(session)` (the `|| 0` defaults are identities here
because the fields are always-present integers once created). -/
def recordTabSwitch (s : Session) : Session :=
  { s with tabSwitchCount := s.tabSwitchCount + 1 }

/-- Model of `recordDistractionVisit(session, domain)`. -/
def recordDistractionVisit (s : Session) (domain : String) : Session :=
  { s with distractionVisits := s.distractionVisits + 1,
           lastDistractionDomain := some domain }

/-- Model of `addDistractionTime(session, seconds)`. -/
def addDistractionTime (s : Session) (seconds : Int) : Session :=
  { s with distractionSeconds := s.distractionSeconds + seconds }

/-- Model of `markInterrupted(session)`. -/
def markInterrupted (s : Session) : Session := { s with interrupted := true }

/-- A `DailyStats` record; `date` is the day-index model of the stored
`YYYY-MM-DD` string. -/
structure DailyStats where
  date : Int
  totalFocusMinutes : Int
  sessionsCompleted : Int
  totalTabSwitches : Int
  totalDistractionVisits : Int
  totalDistractionSeconds : Int
  streak : Int
deriving DecidableEq, Repr

/-- One per-day aggregate inside `weekly.days`; `qualityCounts` models the
JS object as an association list keyed by quality label. -/
structure DayAgg where
  focusMinutes : Int
  sessions : Int
  distractionMinutes : Int
  totalScore : Int
  scoreCount : Int
  qualityCounts : List (String × Int)
deriving DecidableEq, Repr

/-- Model of `WeeklyData`; `weekStart` and the day keys are day-index models of the
stored date strings. -/
structure WeeklyData where
  weekStart : Int
  days : List (Int × DayAgg)
deriving DecidableEq, Repr

/-- JS object property assignment `m[k] = v` on an association list:
overwrite the existing entry, or append a new one. -/
def updAssoc [BEq κ] (m : List (κ × ν)) (k : κ) (v : ν) : List (κ × ν) :=
  if m.any (fun p => p.1 == k) then
    m.map (fun p => if p.1 == k then (k, v) else p)
  else m ++ [(k, v)]

/-- The fresh `qualityCounts` object. -/
def freshQualityCounts : List (String × Int) :=
  [("Deep Work", 0), ("Focused", 0), ("Fragmented", 0), ("Distracted", 0)]

/-- Model of `qc[ql] = (qc[ql] || 0) + 1`. -/
def bumpQuality (qc : List (String × Int)) (ql : String) : List (String × Int) :=
  updAssoc qc ql (((qc.lookup ql).getD 0) + 1)

/-- The `pendingReflection` summary built in `timerEngine.complete()`. -/
structure PendingReflection where
  sessionId : String
  score : Option Int
  qualityLabel : Option String
  duration : Int
deriving DecidableEq, Repr

inductive Status where
  | idle
  | running
  | paused
deriving DecidableEq, Repr

/-- Model of `FocusState` (storageAdapter). -/
structure FocusState where
  status : Status
  duration : Int
  remaining : Int
  startedAt : Option Int
  pausedAt : Option Int
  elapsedBeforePause : Int
  currentSession : Option Session
  pendingReflection : Option PendingReflection
deriving DecidableEq, Repr

/-- Model of `defaultState()` from storageAdapter. -/
def defaultState : FocusState :=
  { status := .idle, duration := 25 * 60, remaining := 25 * 60,
    startedAt := none, pausedAt := none, elapsedBeforePause := 0,
    currentSession := none, pendingReflection := none }

/-- The two chrome alarms: `focusComplete` carries its `delayInMinutes`
argument (stored here as the seconds value passed to `_setAlarms`), and
`focusTick` its `periodInMinutes`. `none` means the alarm is cleared. -/
structure Alarms where
  completeIn : Option Int
  tickEvery : Option Int
deriving DecidableEq, Repr

/-- Trace entries for `emit` calls issued by the core modules (payloads
projected onto the fields the spec documents). -/
inductive Ev where
  | sessionStart (sessionId : String) (duration : Int)
  | sessionEnd (sessionId : String) (score : Int) (qualityLabel : String)
  | distraction (domain : String) (tabId : Int)
  | scoreCalculated (score : Int) (qualityLabel : String)
  | reflectionSaved (sessionId : String)
  | focusModeEnabled
  | focusModeDisabled
  | tickEv (remaining : Int)
deriving DecidableEq, Repr

/-- The whole mutable world the core operates on: the persisted storage
keys the claims concern (`focusState`, `sessions`, `focusStats`,
`weeklyData`), the chrome alarms, the distractionTracking module's
runtime variables, the emission trace, and the constant local-timezone
offset of the environment (minutes east of UTC). -/
structure World where
  tz : Int
  state : FocusState
  sessions : List Session
  stats : Option DailyStats
  weekly : Option WeeklyData
  alarms : Alarms
  events : List Ev
  distractionStart : Option Int
  distractionTabId : Option Int
deriving DecidableEq, Repr

/-- The world right after a fresh install: every storage key absent
(reads fall back to defaults), no alarms, no open distraction interval. -/
def initialWorld (tz : Int) : World :=
  { tz := tz, state := defaultState, sessions := [], stats := none,
    weekly := none, alarms := ⟨none, none⟩, events := [],
    distractionStart := none, distractionTabId := none }

/-- Record an `emit` call in the trace. -/
def emitEv (e : Ev) (w : World) : World := { w with events := w.events ++ [e] }

/-- Model of `storage.appendSession`: push, then cap the list at 200 entries by
splicing off the oldest. -/
def appendSessionList (hist : List Session) (s : Session) : List Session :=
  let sessions := hist ++ [s]
  if sessions.length > 200 then sessions.drop (sessions.length - 200)
  else sessions

/-! ## Distraction tracking (src/features/distractionTracking/index.js) -/

/-- ASCII lowercasing, as the URL parser applies to hostnames. -/
def jsLowerChar (c : Char) : Char :=
  if 'A' ≤ c && c ≤ 'Z' then Char.ofNat (c.toNat + 32) else c

/-- The characters after the first `://` separator, or `none` when the
separator is absent (the `new URL` constructor throws). -/
def dropThroughSep : List Char → Option (List Char)
  | [] => none
  | c :: rest =>
    if c = ':' && rest.take 2 = ['/', '/'] then some (rest.drop 2)
    else dropThroughSep rest

/-- Model of `extractDomain(url)`:
`new URL(url).hostname.replace(/^www\./, '')` for authority-style URLs —
the host is the text between the scheme separator and the next
`/`, `:`, `?` or `#`, lowercased by the URL parser, with a leading
`www.` stripped; parse failure (no scheme separator) yields ''. -/
def extractDomain (url : String) : String :=
  match dropThroughSep url.data with
  | none => ""
  | some rest =>
    let host := (rest.takeWhile
      (fun c => c != '/' && c != ':' && c != '?' && c != '#')).map jsLowerChar
    let host := if host.take 4 = ['w', 'w', 'w', '.'] then host.drop 4 else host
    String.mk host

/-- Model of `_leaveDistraction()`: no-op when no interval is open; otherwise close
the interval, compute `Math.round((now - start) / 1000)` and add it to the
current session's `distractionSeconds` (skipped when no session). -/
def leaveDistractionOp (now : Int) (w : World) : World :=
  match w.distractionStart with
  | none => w
  | some start =>
    let elapsed := jsRound (now - start) 1000
    let w1 := { w with distractionStart := none, distractionTabId := none }
    -- the state read back after closing the interval is unchanged by the
    -- interval fields, so the session lookup scrutinises `w.state`
    match w.state.currentSession with
    | none => w1
    | some s =>
      { w1 with state := { w1.state with
          currentSession := some (addDistractionTime s elapsed) } }

/-- Model of `enterDistraction(tabId, url)`: sets the module's interval variables
first, then — only if a session is active — records the visit and emits
the distraction hook. -/
def enterDistractionOp (now : Int) (tabId : Int) (url : String) (w : World) :
    World :=
  let w1 := { w with distractionStart := some now,
                     distractionTabId := some tabId }
  -- `w1.state = w.state`: only the interval fields were touched
  match w.state.currentSession with
  | none => w1
  | some s =>
    let domain := extractDomain url
    let updated := recordDistractionVisit s domain
    let w2 := { w1 with state := { w1.state with currentSession := some updated } }
    emitEv (.distraction domain tabId) w2

/-! ## Session manager stats rollup (sessionManager.js) -/

/-- Model of `_calcStreak(prev)`: increment when the stored record is yesterday's
and reached 30 focus minutes, else reset to 0. -/
def calcStreak (prev : Option DailyStats) (now : Int) : Int :=
  match prev with
  | none => 0
  | some p =>
    if p.date = yesterdayKey now ∧ p.totalFocusMinutes ≥ 30 then p.streak + 1
    else 0

/-- Model of `getDailyStats()`: return the stored record when its date is still
today's key, otherwise persist and return a fresh record carrying the
recomputed streak. -/
def getDailyStatsOp (now : Int) (w : World) : World × DailyStats :=
  let today := todayKey now
  match w.stats with
  | some stored =>
    if stored.date = today then (w, stored)
    else
      let fresh : DailyStats :=
        { date := today, totalFocusMinutes := 0, sessionsCompleted := 0,
          totalTabSwitches := 0, totalDistractionVisits := 0,
          totalDistractionSeconds := 0, streak := calcStreak w.stats now }
      ({ w with stats := some fresh }, fresh)
  | none =>
    let fresh : DailyStats :=
      { date := today, totalFocusMinutes := 0, sessionsCompleted := 0,
        totalTabSwitches := 0, totalDistractionVisits := 0,
        totalDistractionSeconds := 0, streak := calcStreak w.stats now }
    ({ w with stats := some fresh }, fresh)

/-- Model of `_updateDailyStats(session, score)`. -/
def updateDailyStatsOp (now : Int) (s : Session) (w : World) : World :=
  let p := getDailyStatsOp now w
  let stats := p.2
  let focusMins := jsRound s.duration 60
  let next : DailyStats :=
    { stats with
      totalFocusMinutes := stats.totalFocusMinutes + focusMins,
      sessionsCompleted := stats.sessionsCompleted + 1,
      totalTabSwitches := stats.totalTabSwitches + s.tabSwitchCount,
      totalDistractionVisits := stats.totalDistractionVisits + s.distractionVisits,
      totalDistractionSeconds := stats.totalDistractionSeconds + s.distractionSeconds }
  { p.1 with stats := some next }

/-- Model of `storage.getWeeklyData()`: reset to a fresh empty week when the stored
`weekStart` no longer matches the current `_weekKey()`. -/
def getWeeklyDataOp (now : Int) (w : World) : World × WeeklyData :=
  let wk := weekKey now w.tz
  match w.weekly with
  | some data =>
    if data.weekStart = wk then (w, data)
    else
      let fresh : WeeklyData := { weekStart := wk, days := [] }
      ({ w with weekly := some fresh }, fresh)
  | none =>
    let fresh : WeeklyData := { weekStart := wk, days := [] }
    ({ w with weekly := some fresh }, fresh)

/-- Model of `_updateWeeklyData(session, score, ql)`. -/
def updateWeeklyDataOp (now : Int) (s : Session) (score : Int) (ql : String)
    (w : World) : World :=
  let p := getWeeklyDataOp now w
  let weekly := p.2
  let today := todayKey now
  let prev := (weekly.days.lookup today).getD
    { focusMinutes := 0, sessions := 0, distractionMinutes := 0,
      totalScore := 0, scoreCount := 0, qualityCounts := freshQualityCounts }
  let entry : DayAgg :=
    { focusMinutes := prev.focusMinutes + jsRound s.duration 60,
      sessions := prev.sessions + 1,
      distractionMinutes := prev.distractionMinutes + jsRound s.distractionSeconds 60,
      totalScore := prev.totalScore + score,
      scoreCount := prev.scoreCount + 1,
      qualityCounts := bumpQuality prev.qualityCounts ql }
  { p.1 with weekly := some { weekStart := weekly.weekStart,
                              days := updAssoc weekly.days today entry } }

/-- Model of `completeSession(session, actualDuration)`: score, stamp, persist to
the capped history, roll up daily and weekly stats, then emit
score-calculated and session-end. The session-end emission synchronously
invokes the handler that `distractionTracking.init()` registered, which
flushes any open distraction interval (`insightsEngine`'s session-end
handler writes only the patterns key, outside this model). -/
def completeSessionOp (now : Int) (session : Session) (actualDuration : Int)
    (w : World) : World × Session :=
  let result := scoreResult session.metrics
  let completed : Session :=
    { session with
      endTime := some now, duration := actualDuration,
      score := some result.1, qualityLabel := some result.2,
      completed := true }
  let w1 := { w with sessions := appendSessionList w.sessions completed }
  let w2 := updateDailyStatsOp now completed w1
  let w3 := updateWeeklyDataOp now completed result.1 result.2 w2
  let w4 := emitEv (.scoreCalculated result.1 result.2) w3
  let w5 := emitEv (.sessionEnd completed.id result.1 result.2) w4
  let w6 := leaveDistractionOp now w5
  (w6, completed)

/-! ## Timer engine (timerEngine.js) -/

/-- Model of `_setAlarms(durationSeconds)`. -/
def setAlarms (durationSeconds : Int) (w : World) : World :=
  { w with alarms := ⟨some durationSeconds, some 1⟩ }

/-- Model of `_clearAlarms()`. -/
def clearAlarms (w : World) : World := { w with alarms := ⟨none, none⟩ }

/-- The wall-clock reconciliation shared by `pause`, `tick` and `recover`:
`Math.floor((now - startedAt) / 1000) + elapsedBeforePause` (JS coerces a
null `startedAt` to 0). -/
def elapsedAt (now : Int) (st : FocusState) : Int :=
  (now - st.startedAt.getD 0).fdiv 1000 + st.elapsedBeforePause

/-- Model of `Math.max(0, duration - elapsed)`. -/
def remainingAt (now : Int) (st : FocusState) : Int :=
  max 0 (st.duration - elapsedAt now st)

/-- Model of `start(duration)`. -/
def startOp (now : Int) (id : String) (duration : Int) (w : World) : World :=
  let session := createSession now id duration
  let st : FocusState :=
    { w.state with
      status := .running, duration := duration,
      remaining := duration, startedAt := some now, pausedAt := none,
      elapsedBeforePause := 0, pendingReflection := none,
      currentSession := some session }
  let w1 := setAlarms duration { w with state := st }
  emitEv .focusModeEnabled (emitEv (.sessionStart session.id duration) w1)

/-- Model of `pause()`. -/
def pauseOp (now : Int) (w : World) : World :=
  if w.state.status ≠ .running then w
  else
    let elapsed := elapsedAt now w.state
    let st : FocusState :=
      { w.state with
        status := .paused, pausedAt := some now,
        remaining := remainingAt now w.state, elapsedBeforePause := elapsed,
        currentSession := w.state.currentSession.map markInterrupted }
    clearAlarms { w with state := st }

/-- Model of `resume()`. -/
def resumeOp (now : Int) (w : World) : World :=
  if w.state.status ≠ .paused then w
  else
    let st : FocusState :=
      { w.state with
        status := .running, startedAt := some now,
        pausedAt := none }
    setAlarms w.state.remaining { w with state := st }

/-- Model of `reset()`: clear alarms, overwrite the state with
`{...defaultState(), duration, remaining: duration}`, emit
focus-mode-disabled. The session is discarded without scoring. -/
def resetOp (w : World) : World :=
  let w1 := clearAlarms w
  let st : FocusState :=
    { defaultState with
      duration := w.state.duration,
      remaining := w.state.duration }
  emitEv .focusModeDisabled { w1 with state := st }

/-- Model of `complete()`: clear alarms, finalize `currentSession` (or a freshly
created fallback session when none exists) through `completeSession`, then
overwrite the state with `{...defaultState(), duration, remaining,
pendingReflection}` and emit focus-mode-disabled. Note: no status guard. -/
def completeOp (now : Int) (idFallback : String) (w : World) :
    World × Session :=
  let w1 := clearAlarms w
  let session := w1.state.currentSession.getD
    (createSession now idFallback w1.state.duration)
  let p := completeSessionOp now session w1.state.duration w1
  let reflection : PendingReflection :=
    { sessionId := p.2.id, score := p.2.score,
      qualityLabel := p.2.qualityLabel, duration := p.2.duration }
  let st : FocusState :=
    { defaultState with
      duration := w.state.duration,
      remaining := w.state.duration, pendingReflection := some reflection }
  (emitEv .focusModeDisabled { p.1 with state := st }, p.2)

/-- Model of `tick()`: guarded on `status = running`; recompute `remaining` from the
wall clock, emit the tick hook, and trigger `complete()` on expiry. -/
def tickOp (now : Int) (idFallback : String) (w : World) : World × Bool :=
  if w.state.status ≠ .running then (w, false)
  else
    let remaining := remainingAt now w.state
    let w1 := { w with state := { w.state with remaining := remaining } }
    let w2 := emitEv (.tickEv remaining) w1
    if remaining ≤ 0 then ((completeOp now idFallback w2).1, true)
    else (w2, false)

/-- Model of `recover()`: state unchanged unless `status = running`; then either
complete immediately (computed remaining ≤ 0) or restore the recomputed
remaining and reschedule both alarms. -/
def recoverOp (now : Int) (idFallback : String) (w : World) : World :=
  if w.state.status ≠ .running then w
  else
    let remaining := remainingAt now w.state
    if remaining ≤ 0 then (completeOp now idFallback w).1
    else setAlarms remaining
      { w with state := { w.state with remaining := remaining } }

/-! ## Background wiring (background.js) -/

inductive AlarmName where
  | focusComplete
  | focusTick
deriving DecidableEq, Repr

/-- The `chrome.alarms.onAlarm` listener: the completion alarm invokes
`timer.complete()` unconditionally; the tick alarm invokes `timer.tick()`
(the remaining listener body only broadcasts presentation state). -/
def onAlarm (name : AlarmName) (now : Int) (idFallback : String) (w : World) :
    World :=
  match name with
  | .focusComplete => (completeOp now idFallback w).1
  | .focusTick => (tickOp now idFallback w).1

/-- The timer-state invariant of claim C9: an idle status carries no
current session. -/
def TimerInv (w : World) : Prop :=
  w.state.status = .idle → w.state.currentSession = none

/-- A running world with a 25-minute session begun at time 0 and a
distraction interval opened at time 0 on tab 7. -/
def runningWithInterval : World :=
  { initialWorld 0 with
    state := { defaultState with
      status := .running, duration := 1500, remaining := 1500,
      startedAt := some 0,
      currentSession := some (createSession 0 "s3" 1500) },
    alarms := ⟨some 1500, some 1⟩,
    distractionStart := some 0, distractionTabId := some 7 }

/-- A paused world holding an interrupted session. -/
def pausedWorld : World :=
  { initialWorld 0 with
    state := { defaultState with
      status := .paused, duration := 1500, remaining := 900,
      elapsedBeforePause := 600, pausedAt := some 600000,
      currentSession := some (markInterrupted (createSession 0 "p1" 1500)) } }

/-- A running world with a 5-minute session begun at time 0 and no open
distraction interval. -/
def fiveMinuteRun : World :=
  { initialWorld 0 with
    state := { defaultState with
      status := .running, duration := 300, remaining := 300,
      startedAt := some 0,
      currentSession := some (createSession 0 "s7" 300) },
    alarms := ⟨some 300, some 1⟩ }

/-! ## General lemmas -/

theorem jsRound_one (a : Int) : jsRound a 1 = a := by
  show (2 * a + 1).fdiv 2 = a
  rw [Int.fdiv_eq_ediv _ (by norm_num)]
  omega

theorem isoDateKey_sub_days (t k : Int) :
    isoDateKey (t - k * msPerDay) = isoDateKey t - k := by
  unfold isoDateKey msPerDay
  rw [Int.fdiv_eq_ediv _ (by norm_num), Int.fdiv_eq_ediv _ (by norm_num)]
  omega

/-! ## Frame lemmas -/

@[simp] theorem emitEv_sessions (e : Ev) (w : World) :
    (emitEv e w).sessions = w.sessions := rfl

@[simp] theorem emitEv_state (e : Ev) (w : World) :
    (emitEv e w).state = w.state := rfl

@[simp] theorem clearAlarms_sessions (w : World) :
    (clearAlarms w).sessions = w.sessions := rfl

@[simp] theorem clearAlarms_state (w : World) :
    (clearAlarms w).state = w.state := rfl

@[simp] theorem setAlarms_sessions (d : Int) (w : World) :
    (setAlarms d w).sessions = w.sessions := rfl

@[simp] theorem setAlarms_state (d : Int) (w : World) :
    (setAlarms d w).state = w.state := rfl

theorem leaveDistractionOp_sessions (now : Int) (w : World) :
    (leaveDistractionOp now w).sessions = w.sessions := by
  unfold leaveDistractionOp
  rcases w.distractionStart with _ | start
  · rfl
  · rcases w.state.currentSession with _ | s <;> rfl

theorem getDailyStatsOp_fst_sessions (now : Int) (w : World) :
    ((getDailyStatsOp now w).1).sessions = w.sessions := by
  unfold getDailyStatsOp
  rcases w.stats with _ | s
  · rfl
  · dsimp only
    split <;> rfl

theorem getWeeklyDataOp_fst_sessions (now : Int) (w : World) :
    ((getWeeklyDataOp now w).1).sessions = w.sessions := by
  unfold getWeeklyDataOp
  rcases w.weekly with _ | d
  · rfl
  · dsimp only
    split <;> rfl

theorem updateDailyStatsOp_sessions (now : Int) (s : Session) (w : World) :
    (updateDailyStatsOp now s w).sessions = w.sessions := by
  unfold updateDailyStatsOp
  exact getDailyStatsOp_fst_sessions now w

theorem updateWeeklyDataOp_sessions (now : Int) (s : Session) (score : Int)
    (ql : String) (w : World) :
    (updateWeeklyDataOp now s score ql w).sessions = w.sessions := by
  unfold updateWeeklyDataOp
  exact getWeeklyDataOp_fst_sessions now w

theorem completeOp_fst_sessions (now : Int) (id : String) (w : World) :
    ((completeOp now id w).1).sessions
      = appendSessionList w.sessions (completeOp now id w).2 := by
  unfold completeOp completeSessionOp
  simp [leaveDistractionOp_sessions, updateWeeklyDataOp_sessions,
        updateDailyStatsOp_sessions]

theorem appendSessionList_length (hist : List Session) (s : Session) :
    (appendSessionList hist s).length = min (hist.length + 1) 200 := by
  unfold appendSessionList
  dsimp only
  split
  · simp_all
    omega
  · simp_all

/-! ## Claims -/

/-- C9: the invariant "status = idle implies currentSession is absent"
holds in the initial default state and is preserved by start, pause,
resume, reset, tick, complete and recover. -/
theorem C9_idle_no_session_invariant :
    (∀ tz : Int, TimerInv (initialWorld tz)) ∧
    (∀ (now : Int) (id : String) (d : Int) (w : World),
      TimerInv (startOp now id d w)) ∧
    (∀ (now : Int) (w : World), TimerInv w → TimerInv (pauseOp now w)) ∧
    (∀ (now : Int) (w : World), TimerInv w → TimerInv (resumeOp now w)) ∧
    (∀ w : World, TimerInv (resetOp w)) ∧
    (∀ (now : Int) (id : String) (w : World),
      TimerInv w → TimerInv ((tickOp now id w).1)) ∧
    (∀ (now : Int) (id : String) (w : World),
      TimerInv ((completeOp now id w).1)) ∧
    (∀ (now : Int) (id : String) (w : World),
      TimerInv w → TimerInv (recoverOp now id w)) := by
  refine ⟨?_, ?_, ?_, ?_, ?_, ?_, ?_, ?_⟩
  · intro tz h
    rfl
  · intro now id d w h
    exact absurd h (by simp [startOp])
  · intro now w hInv
    unfold TimerInv pauseOp
    split
    · exact hInv
    · intro h
      exact absurd h (by simp)
  · intro now w hInv
    unfold TimerInv resumeOp
    split
    · exact hInv
    · intro h
      exact absurd h (by simp)
  · intro w h
    rfl
  · intro now id w hInv
    unfold TimerInv tickOp
    split
    · exact hInv
    · rename_i hrun
      dsimp only
      split
      · intro _
        rfl
      · intro h
        have h2 : w.state.status = Status.idle := h
        simp only [not_not] at hrun
        rw [hrun] at h2
        exact absurd h2 (by simp)
  · intro now id w _
    rfl
  · intro now id w hInv
    unfold TimerInv recoverOp
    split
    · exact hInv
    · rename_i hrun
      dsimp only
      split
      · intro _
        rfl
      · intro h
        have h2 : w.state.status = Status.idle := h
        simp only [not_not] at hrun
        rw [hrun] at h2
        exact absurd h2 (by simp)

/-- C9 witness: the invariant is decided at concrete worlds and the
preservation clauses applied there. -/
theorem C9_witness :
    TimerInv (pauseOp 1000 (initialWorld 0)) ∧
    TimerInv (resumeOp 1000 (initialWorld 0)) ∧
    TimerInv ((tickOp 1000 "t9" (initialWorld 0)).1) ∧
    TimerInv (recoverOp 1000 "r9" (initialWorld 0)) :=
  ⟨C9_idle_no_session_invariant.2.2.1 1000 (initialWorld 0) (fun _ => rfl),
   C9_idle_no_session_invariant.2.2.2.1 1000 (initialWorld 0) (fun _ => rfl),
   C9_idle_no_session_invariant.2.2.2.2.2.1 1000 "t9" (initialWorld 0)
     (fun _ => rfl),
   C9_idle_no_session_invariant.2.2.2.2.2.2.2 1000 "r9" (initialWorld 0)
     (fun _ => rfl)⟩

/-- C10: reset() always clears `pendingReflection` (the state after reset
has none, whatever was pending) while preserving the configured
duration. -/
theorem C10_reset_clears_pending_reflection (w : World) :
    (resetOp w).state.pendingReflection = none ∧
    (resetOp w).state.duration = w.state.duration :=
  ⟨rfl, rfl⟩

/-- C3 counterexample: pausing at t = 5000 ms while the interval opened at
t = 0 is still open does NOT flush it — the interval stays open and the
session's `distractionSeconds` stays 0 instead of gaining the elapsed
5 seconds. -/
theorem C3_counterexample :
    runningWithInterval.state.status = .running ∧
    runningWithInterval.distractionStart = some 0 ∧
    ¬ ((pauseOp 5000 runningWithInterval).distractionStart = none ∧
       (pauseOp 5000 runningWithInterval).state.currentSession.map
         Session.distractionSeconds = some 5) := by
  refine ⟨rfl, rfl, ?_⟩
  intro hcontra
  exact absurd hcontra.1 (by decide)

/-- C3 amended: pause() from `running` records the reconciled elapsed time
and remaining, marks the session interrupted, cancels both wake-ups and
sets the status to paused — but it does NOT flush the open distraction
interval: the interval fields and the session's `distractionSeconds` are
left exactly as they were. -/
theorem C3_pause_does_not_flush (now : Int) (w : World)
    (h : w.state.status = .running) :
    (pauseOp now w).state.status = .paused ∧
    (pauseOp now w).state.elapsedBeforePause = elapsedAt now w.state ∧
    (pauseOp now w).state.remaining = remainingAt now w.state ∧
    (pauseOp now w).state.currentSession
      = w.state.currentSession.map markInterrupted ∧
    (pauseOp now w).alarms = ⟨none, none⟩ ∧
    (pauseOp now w).distractionStart = w.distractionStart ∧
    (pauseOp now w).distractionTabId = w.distractionTabId ∧
    (pauseOp now w).state.currentSession.map Session.distractionSeconds
      = w.state.currentSession.map Session.distractionSeconds := by
  have hg : ¬ (w.state.status ≠ .running) := by simp [h]
  unfold pauseOp
  rw [if_neg hg]
  refine ⟨rfl, rfl, rfl, rfl, rfl, rfl, rfl, ?_⟩
  rcases w.state.currentSession with _ | s <;> rfl

/-- C3 witness: the amended pause behaviour evaluated on the concrete
running world with an open interval. -/
theorem C3_witness :
    (pauseOp 5000 runningWithInterval).state.status = .paused ∧
    (pauseOp 5000 runningWithInterval).distractionStart
      = runningWithInterval.distractionStart ∧
    (pauseOp 5000 runningWithInterval).alarms = ⟨none, none⟩ :=
  ⟨(C3_pause_does_not_flush 5000 runningWithInterval rfl).1,
   (C3_pause_does_not_flush 5000 runningWithInterval rfl).2.2.2.2.2.1,
   (C3_pause_does_not_flush 5000 runningWithInterval rfl).2.2.2.2.1⟩

/-- C4 counterexample: calling enterDistraction with no active session is
not a no-op — the open-interval variables are still assigned (start = now,
tabId recorded) before the session guard returns. -/
theorem C4_counterexample :
    (initialWorld 0).state.currentSession = none ∧
    (initialWorld 0).distractionStart = none ∧
    (enterDistractionOp 1000 5 "https://www.youtube.com/watch"
        (initialWorld 0)).distractionStart = some 1000 ∧
    (enterDistractionOp 1000 5 "https://www.youtube.com/watch"
        (initialWorld 0)).distractionTabId = some 5 := by
  refine ⟨rfl, rfl, rfl, rfl⟩

/-- C4 amended: with no active session, enterDistraction still opens the
interval (start = now, tabId recorded) but changes nothing else — no
session counters, no emitted hook; with an active session it additionally
increments `distractionVisits` by 1, records `lastDistractionDomain`, and
emits the distraction hook with the extracted domain and tabId. -/
theorem C4_enterDistraction (now tabId : Int) (url : String) (w : World) :
    (w.state.currentSession = none →
      enterDistractionOp now tabId url w
        = { w with distractionStart := some now,
                   distractionTabId := some tabId }) ∧
    (∀ s : Session, w.state.currentSession = some s →
      enterDistractionOp now tabId url w
        = { w with
            distractionStart := some now, distractionTabId := some tabId,
            state := { w.state with
              currentSession := some (recordDistractionVisit s (extractDomain url)) },
            events := w.events ++ [.distraction (extractDomain url) tabId] } ∧
      (enterDistractionOp now tabId url w).state.currentSession.map
          Session.distractionVisits = some (s.distractionVisits + 1) ∧
      (enterDistractionOp now tabId url w).state.currentSession.map
          Session.lastDistractionDomain = some (some (extractDomain url))) := by
  constructor
  · intro h
    unfold enterDistractionOp
    rw [h]
  · intro s h
    unfold enterDistractionOp
    rw [h]
    exact ⟨rfl, rfl, rfl⟩

/-- C4 witness: both branches of the amended enterDistraction behaviour at
concrete inputs. -/
theorem C4_witness :
    enterDistractionOp 1000 5 "https://www.youtube.com/watch" (initialWorld 0)
      = { initialWorld 0 with
          distractionStart := some 1000, distractionTabId := some 5 } ∧
    (enterDistractionOp 2000 7 "https://www.youtube.com/watch"
        runningWithInterval).state.currentSession.map
          Session.lastDistractionDomain = some (some "youtube.com") ∧
    (enterDistractionOp 2000 7 "https://www.youtube.com/watch"
        runningWithInterval).state.currentSession.map
          Session.distractionVisits = some 1 := by
  refine ⟨?_, ?_, ?_⟩
  · exact (C4_enterDistraction 1000 5 "https://www.youtube.com/watch"
      (initialWorld 0)).1 rfl
  · have h := ((C4_enterDistraction 2000 7 "https://www.youtube.com/watch"
      runningWithInterval).2 (createSession 0 "s3" 1500) rfl).2.2
    rw [h]
    decide
  · have h := ((C4_enterDistraction 2000 7 "https://www.youtube.com/watch"
      runningWithInterval).2 (createSession 0 "s3" 1500) rfl).2.1
    rw [h]
    decide

/-- C8: pausing a running timer at `t1` and resuming after a gap of `T`
seconds leaves the remaining time unchanged relative to the pause:
`elapsedBeforePause` absorbs the pre-pause elapsed time, `startedAt` is
reset to the resume instant, and the wall-clock-recomputed remaining at
the resume instant equals the remaining recorded at pause — none of the
paused seconds count against the session. -/
theorem C8_pause_resume_preserves_remaining (w : World) (t1 T : Int)
    (h : w.state.status = .running) (_hT : 0 ≤ T) :
    (resumeOp (t1 + T * 1000) (pauseOp t1 w)).state.status = .running ∧
    (resumeOp (t1 + T * 1000) (pauseOp t1 w)).state.startedAt
      = some (t1 + T * 1000) ∧
    (resumeOp (t1 + T * 1000) (pauseOp t1 w)).state.elapsedBeforePause
      = elapsedAt t1 w.state ∧
    (resumeOp (t1 + T * 1000) (pauseOp t1 w)).state.remaining
      = (pauseOp t1 w).state.remaining ∧
    remainingAt (t1 + T * 1000)
        (resumeOp (t1 + T * 1000) (pauseOp t1 w)).state
      = (pauseOp t1 w).state.remaining := by
  have hg : ¬ (w.state.status ≠ .running) := by simp [h]
  have hp : pauseOp t1 w
      = clearAlarms { w with state :=
          { w.state with
            status := .paused, pausedAt := some t1,
            remaining := remainingAt t1 w.state,
            elapsedBeforePause := elapsedAt t1 w.state,
            currentSession := w.state.currentSession.map markInterrupted } } := by
    unfold pauseOp
    rw [if_neg hg]
  rw [hp]
  have hg2 : ¬ ((clearAlarms { w with state :=
      { w.state with
        status := .paused, pausedAt := some t1,
        remaining := remainingAt t1 w.state,
        elapsedBeforePause := elapsedAt t1 w.state,
        currentSession := w.state.currentSession.map
          markInterrupted } }).state.status ≠ .paused) := by
    simp
  unfold resumeOp
  rw [if_neg hg2]
  refine ⟨rfl, rfl, rfl, rfl, ?_⟩
  show remainingAt (t1 + T * 1000)
      { w.state with
        status := .running, startedAt := some (t1 + T * 1000),
        pausedAt := none,
        remaining := remainingAt t1 w.state,
        elapsedBeforePause := elapsedAt t1 w.state,
        currentSession := w.state.currentSession.map markInterrupted }
    = remainingAt t1 w.state
  unfold remainingAt elapsedAt
  simp

/-- C8 witness: a 25-minute session started at 0, paused at t = 60000 and
resumed 90 seconds later keeps its recorded remaining time. -/
theorem C8_witness :
    ((resumeOp (60000 + 90 * 1000)
        (pauseOp 60000 runningWithInterval)).state.remaining)
      = (pauseOp 60000 runningWithInterval).state.remaining ∧
    remainingAt (60000 + 90 * 1000)
        (resumeOp (60000 + 90 * 1000)
          (pauseOp 60000 runningWithInterval)).state
      = (pauseOp 60000 runningWithInterval).state.remaining :=
  ⟨(C8_pause_resume_preserves_remaining runningWithInterval 60000 90 rfl
      (by decide)).2.2.2.1,
   (C8_pause_resume_preserves_remaining runningWithInterval 60000 90 rfl
      (by decide)).2.2.2.2⟩

/-- C7: recover() leaves the world unchanged unless the persisted status is
running; when running it recomputes remaining from `startedAt` and
`elapsedBeforePause`; a non-positive recomputed remaining triggers
complete() exactly once, appending exactly one history entry; a positive
one is stored and both wake-ups are rescheduled. -/
theorem C7_recover_reconciles (now : Int) (id : String) (w : World) :
    (w.state.status ≠ .running → recoverOp now id w = w) ∧
    (w.state.status = .running → remainingAt now w.state ≤ 0 →
      recoverOp now id w = (completeOp now id w).1 ∧
      (recoverOp now id w).sessions
        = appendSessionList w.sessions (completeOp now id w).2 ∧
      (recoverOp now id w).sessions.length = min (w.sessions.length + 1) 200 ∧
      (recoverOp now id w).state.status = .idle ∧
      (recoverOp now id w).state.currentSession = none) ∧
    (w.state.status = .running → 0 < remainingAt now w.state →
      (recoverOp now id w).state
        = { w.state with remaining := remainingAt now w.state } ∧
      (recoverOp now id w).alarms
        = ⟨some (remainingAt now w.state), some 1⟩ ∧
      (recoverOp now id w).sessions = w.sessions) := by
  refine ⟨?_, ?_, ?_⟩
  · intro h
    unfold recoverOp
    rw [if_pos h]
  · intro hrun hrem
    have hr : recoverOp now id w = (completeOp now id w).1 := by
      unfold recoverOp
      rw [if_neg (by simp [hrun])]
      dsimp only
      rw [if_pos hrem]
    rw [hr]
    refine ⟨rfl, completeOp_fst_sessions now id w, ?_, rfl, rfl⟩
    rw [completeOp_fst_sessions now id w, appendSessionList_length]
  · intro hrun hpos
    have hr : recoverOp now id w
        = setAlarms (remainingAt now w.state)
            { w with state :=
              { w.state with remaining := remainingAt now w.state } } := by
      unfold recoverOp
      rw [if_neg (by simp [hrun])]
      dsimp only
      rw [if_neg (by omega)]
    rw [hr]
    exact ⟨rfl, rfl, rfl⟩

/-- C7 witness: recovering a 5-minute session after a 10-minute gap
completes it, producing exactly one history entry and an idle state. -/
theorem C7_witness :
    (recoverOp 600000 "f7" fiveMinuteRun).sessions.length = 1 ∧
    (recoverOp 600000 "f7" fiveMinuteRun).state.status = .idle ∧
    (recoverOp 0 "g7" fiveMinuteRun).alarms
      = ⟨some (remainingAt 0 fiveMinuteRun.state), some 1⟩ := by
  have h := (C7_recover_reconciles 600000 "f7" fiveMinuteRun).2.1 rfl (by decide)
  have h2 := (C7_recover_reconciles 0 "g7" fiveMinuteRun).2.2 rfl (by decide)
  refine ⟨?_, h.2.2.2.1, h2.2.1⟩
  rw [h.2.2.1]
  decide

/-- C1 counterexample: the one-shot completion wake-up firing in the idle
default state is NOT a no-op — complete() runs unguarded, finalizes a
freshly created session, appends a history entry and changes the state
(a pending reflection appears). -/
theorem C1_counterexample :
    (initialWorld 0).state.status = .idle ∧
    (onAlarm .focusComplete 0 "fresh" (initialWorld 0)).sessions.length
      = (initialWorld 0).sessions.length + 1 ∧
    (onAlarm .focusComplete 0 "fresh" (initialWorld 0)).state.pendingReflection
      ≠ none := by
  refine ⟨rfl, by decide, by decide⟩

/-- C1 amended: only the tick wake-up is state-guarded — firing it in a
non-running state leaves the world unchanged; the completion wake-up
invokes complete() unconditionally, which appends exactly one (possibly
freshly created) finalized session to the history and installs a pending
reflection. -/
theorem C1_wakeup_guards (now : Int) (id : String) (w : World)
    (h : w.state.status ≠ .running) :
    tickOp now id w = (w, false) ∧
    onAlarm .focusTick now id w = w ∧
    (onAlarm .focusComplete now id w).sessions
      = appendSessionList w.sessions (completeOp now id w).2 ∧
    (onAlarm .focusComplete now id w).state.pendingReflection
      = some ⟨(completeOp now id w).2.id, (completeOp now id w).2.score,
              (completeOp now id w).2.qualityLabel,
              (completeOp now id w).2.duration⟩ := by
  have h1 : tickOp now id w = (w, false) := by
    unfold tickOp
    rw [if_pos h]
  refine ⟨h1, ?_, completeOp_fst_sessions now id w, rfl⟩
  show (tickOp now id w).1 = w
  rw [h1]

/-- C1 witness: the guards evaluated at a concrete paused world. -/
theorem C1_witness :
    tickOp 600500 "t1" pausedWorld = (pausedWorld, false) ∧
    onAlarm .focusTick 600500 "t1" pausedWorld = pausedWorld ∧
    (onAlarm .focusComplete 600500 "t1" pausedWorld).sessions
      = appendSessionList pausedWorld.sessions
          (completeOp 600500 "t1" pausedWorld).2 := by
  have h := C1_wakeup_guards 600500 "t1" pausedWorld (by decide)
  exact ⟨h.1, h.2.1, h.2.2.1⟩

/-- C2 counterexample: at 1970-01-01T23:30Z with a UTC+2 local clock the
local calendar date is already Jan 2 while every rollover key still
follows the UTC date Jan 1 — the keys are not computed from the local
calendar date. -/
theorem C2_counterexample :
    ¬ (todayKey 84600000 = localTodayKey 84600000 120 ∧
       yesterdayKey 84600000 = localYesterdayKey 84600000 120 ∧
       weekKey 84600000 120 = localMondayKey 84600000 120) := by
  decide

/-- C2 amended: the daily key, the streak's yesterday key and the weekly
anchor are all computed from the UTC calendar date (`toISOString`): the
today key is the UTC day of now, the yesterday key the UTC day one day
earlier, and the week anchor the UTC day of the instant stepped back by
the local days-since-Monday; they coincide with the local-calendar keys
exactly at instants whose UTC and local dates agree (always so for a
zero offset), not for every wall-clock instant. -/
theorem C2_keys_follow_utc_date (t tz : Int) :
    todayKey t = isoDateKey t ∧
    yesterdayKey t = isoDateKey t - 1 ∧
    weekKey t tz = isoDateKey t - daysSinceMonday t tz ∧
    (localDateKey t tz = isoDateKey t →
      (todayKey t = localTodayKey t tz ∧
       yesterdayKey t = localYesterdayKey t tz ∧
       weekKey t tz = localMondayKey t tz)) := by
  have h1 : yesterdayKey t = isoDateKey t - 1 := by
    have h := isoDateKey_sub_days t 1
    rw [one_mul] at h
    exact h
  have h2 : weekKey t tz = isoDateKey t - daysSinceMonday t tz :=
    isoDateKey_sub_days t (daysSinceMonday t tz)
  refine ⟨rfl, h1, h2, ?_⟩
  intro hloc
  refine ⟨hloc.symm, ?_, ?_⟩
  · rw [h1]
    show isoDateKey t - 1 = localDateKey t tz - 1
    rw [hloc]
  · rw [h2]
    show isoDateKey t - daysSinceMonday t tz
      = localDateKey t tz - daysSinceMonday t tz
    rw [hloc]

/-- C2 witness: for a zero offset (local = UTC) all three keys match the
local calendar keys, here at the epoch instant. -/
theorem C2_witness :
    todayKey 0 = localTodayKey 0 0 ∧
    yesterdayKey 0 = localYesterdayKey 0 0 ∧
    weekKey 0 0 = localMondayKey 0 0 :=
  (C2_keys_follow_utc_date 0 0).2.2.2 (by decide)

/-- Clamping to `[0, 100]` bounds any integer. -/
theorem clampBounds (x : Int) :
    0 ≤ max 0 (min 100 x) ∧ max 0 (min 100 x) ≤ 100 :=
  ⟨le_max_left 0 _, max_le (by norm_num) (min_le_left _ _)⟩

/-- C5: the score is exactly the spec's formula (with absent numeric
fields defaulting to 0), always an integer in [0, 100]; the example
session (2 tab switches, 1 distraction visit, 180 distraction seconds,
interrupted) scores exactly 77 with quality label "Focused". -/
theorem C5_scoring_formula :
    (∀ m : SessionMetrics,
      calcFocusScore m = specScore (orZero m.tabSwitchCount)
        (orZero m.distractionVisits) (orZero m.distractionSeconds)
        m.interrupted) ∧
    (∀ m : SessionMetrics, 0 ≤ calcFocusScore m ∧ calcFocusScore m ≤ 100) ∧
    calcFocusScore ⟨some 2, some 1, some 180, true⟩ = 77 ∧
    scoreResult ⟨some 2, some 1, some 180, true⟩ = (77, "Focused") := by
  refine ⟨?_, ?_, by decide, by decide⟩
  · intro m
    simp only [calcFocusScore, specScore, jsRound_one]
    cases hi : m.interrupted <;> simp [hi] <;> ring_nf
  · intro m
    exact clampBounds _

/-- Helper: `emit` on a single-hook registry returns the handler count and
the ordered outcomes of the wrapped handlers. -/
theorem emit_singleHook (π α : Type) (hook : String)
    (named : List (String × EventBus.RawHandler π α)) (payload : π) :
    EventBus.emit (EventBus.singleHookRegistry hook named) hook payload
      = (named.length,
         named.map (fun nf => EventBus.wrapHandler nf.1 hook nf.2 payload)) := by
  unfold EventBus.emit EventBus.singleHookRegistry
  rw [if_pos rfl]
  cases named with
  | nil => rfl
  | cons a as =>
    simp [List.map_map, Function.comp]

/-- C6: emit invokes every registered handler synchronously in
registration order and returns the handler count; a handler that throws
is caught and logged (a `caught` outcome carrying its plugin and hook
names) without stopping dispatch — every handler before and after it
still contributes exactly its own outcome — and no error reaches the
emitter (emit always returns normally). -/
theorem C6_emit_isolated_dispatch (π α : Type) :
    (∀ (hook : String) (named : List (String × EventBus.RawHandler π α))
        (payload : π),
      EventBus.emit (EventBus.singleHookRegistry hook named) hook payload
        = (named.length,
           named.map (fun nf => EventBus.wrapHandler nf.1 hook nf.2 payload))) ∧
    (∀ (hook : String) (pre post : List (String × EventBus.RawHandler π α))
        (badName msg : String) (bad : EventBus.RawHandler π α) (payload : π),
      bad payload = .error msg →
      EventBus.emit
          (EventBus.singleHookRegistry hook (pre ++ (badName, bad) :: post))
          hook payload
        = (pre.length + 1 + post.length,
           pre.map (fun nf => EventBus.wrapHandler nf.1 hook nf.2 payload)
             ++ EventBus.HandlerOutcome.caught badName hook msg
               :: post.map
                 (fun nf => EventBus.wrapHandler nf.1 hook nf.2 payload))) := by
  refine ⟨emit_singleHook π α, ?_⟩
  intro hook pre post badName msg bad payload hbad
  rw [emit_singleHook π α hook (pre ++ (badName, bad) :: post) payload]
  have hwrap : EventBus.wrapHandler badName hook bad payload
      = EventBus.HandlerOutcome.caught badName hook msg := by
    unfold EventBus.wrapHandler
    rw [hbad]
  simp [hwrap]
  omega

/-- C6 witness: three handlers on the session-end hook, the middle one
throwing — the third still runs, the error is logged, the count is 3. -/
theorem C6_witness :
    EventBus.emit (EventBus.singleHookRegistry "onSessionEnd"
        [("plugin-a", fun _ => Except.ok (1 : Int)),
         ("plugin-b", fun _ => Except.error "boom"),
         ("plugin-c", fun _ => Except.ok (3 : Int))]) "onSessionEnd" (0 : Int)
      = (3, [.ok (1 : Int), .caught "plugin-b" "onSessionEnd" "boom",
             .ok (3 : Int)]) := by
  have h := (C6_emit_isolated_dispatch Int Int).2 "onSessionEnd"
      [("plugin-a", fun _ => Except.ok (1 : Int))]
      [("plugin-c", fun _ => Except.ok (3 : Int))]
      "plugin-b" "boom" (fun _ => Except.error "boom") 0 rfl
  simpa [EventBus.wrapHandler] using h

end FocusTimer
